import Mathlib

/-!
Verification of the POI ingestion pipeline.

This file is a shallow embedding, in Lean, of the Django management command
`poi/management/commands/import_poi.py` and the model `poi/models.py`.
Python `Decimal`/`float` values are modelled as `Rat` (all inputs exercised
by the claims are exact decimal literals); Python exceptions are modelled by
the explicit error type `PyErr` threaded through `Except`; the record store
(the database) is modelled as a list of saved records, and Django's
`transaction.atomic` as the `atomically` wrapper that restores the incoming
store when the wrapped body ends in an uncaught exception.

The numeral parser `parseNumeral?` models the common grammar accepted by
both Python `float(str)` and `decimal.Decimal(str)`: optional surrounding
whitespace, optional sign, integer and/or fractional digits, optional
exponent.  (Python additionally accepts `inf`, `nan` and digit-group
underscores; no claim depends on those inputs.)
-/

/-- PyErr models the Python exception classes that the source code can raise
or catch: the per-row handlers catch `(KeyError, ValueError,
InvalidOperation)` (CSV/JSON) or `(ValueError, InvalidOperation)` (XML),
everything else propagates as a fatal, file-aborting error. -/
inductive PyErr where
  | keyError
  | valueError
  | typeError
  | attributeError
  | invalidOperation
  | parseError
  | unsupportedFormat (ext : String)
deriving DecidableEq, Repr

/-- JVal models a Python value as produced by `json.load` (and, via the
`str`/`null` constructors, CSV cells and XML text). -/
inductive JVal where
  | null
  | boolean (b : Bool)
  | num (q : Rat)
  | str (s : String)
  | arr (items : List JVal)
  | obj (fields : List (String × JVal))

/-- Python truthiness (`if x:`) for the modelled values. -/
def pyTruthy : JVal → Bool
  | .null => false
  | .boolean b => b
  | .num q => !(q == 0)
  | .str s => !s.isEmpty
  | .arr items => !items.isEmpty
  | .obj fields => !fields.isEmpty

/-- Python `x is None` test used by the ratings comprehension filter. -/
def JVal.isNull : JVal → Bool
  | .null => true
  | _ => false

/-- Python iteration `for x in v`: lists yield items, strings yield
one-character strings, dicts yield their keys; other values raise
`TypeError`. -/
def pyIter : JVal → Except PyErr (List JVal)
  | .arr items => .ok items
  | .str s => .ok (s.data.map (fun c => JVal.str ⟨[c]⟩))
  | .obj fields => .ok (fields.map (fun kv => JVal.str kv.1))
  | _ => .error .typeError

/-- Python `str.strip()` on a character list. -/
def pyTrim (cs : List Char) : List Char :=
  (cs.dropWhile Char.isWhitespace).rdropWhile Char.isWhitespace

/-- Python `str.strip(chars)`: remove every leading and trailing character
belonging to `bad`. -/
def pyStripChars (cs : List Char) (bad : List Char) : List Char :=
  (cs.dropWhile (bad.contains ·)).rdropWhile (bad.contains ·)

/-- Characters removed by `ratings_str.strip('[](){}')` in `parse_ratings`. -/
def bracketChars : List Char := ['[', ']', '(', ')', '\x7b', '\x7d']

/-- Python `str.split(sep)` for a single-character separator. -/
def splitOnChar (sep : Char) : List Char → List (List Char)
  | [] => [[]]
  | c :: cs =>
    if c = sep then [] :: splitOnChar sep cs
    else
      match splitOnChar sep cs with
      | [] => [[c]]
      | t :: ts => (c :: t) :: ts

/-- Value of a digit string, most significant first. -/
def digitsVal (ds : List Char) : Nat :=
  ds.foldl (fun a c => a * 10 + (c.toNat - 48)) 0

/-- Model of the numeric-string grammar shared by Python `float(str)` and
`Decimal(str)`: optional whitespace, sign, digits with optional decimal
point, optional exponent.  Returns `none` exactly when Python would raise
(`ValueError` for `float`, `InvalidOperation` for `Decimal`). -/
def parseNumeral? (cs0 : List Char) : Option Rat :=
  let cs1 := pyTrim cs0
  let sgnBody : Rat × List Char :=
    match cs1 with
    | '+' :: r => (1, r)
    | '-' :: r => (-1, r)
    | r => (1, r)
  let sgn := sgnBody.1
  let body := sgnBody.2
  let ipSplit := body.span (·.isDigit)
  let ip := ipSplit.1
  let fpSplit : List Char × List Char :=
    match ipSplit.2 with
    | '.' :: rr => rr.span (·.isDigit)
    | _ => ([], ipSplit.2)
  let fp := fpSplit.1
  let rest :=
    match ipSplit.2 with
    | '.' :: _ => fpSplit.2
    | r => r
  if ip.isEmpty && fp.isEmpty then none
  else
    let mantissa : Rat := (digitsVal ip : Rat) + (digitsVal fp : Rat) / ((10 : Rat) ^ fp.length)
    match rest with
    | [] => some (sgn * mantissa)
    | e :: r3 =>
      if e = 'e' || e = 'E' then
        let esgnBody : Bool × List Char :=
          match r3 with
          | '+' :: rr => (true, rr)
          | '-' :: rr => (false, rr)
          | rr => (true, rr)
        let edsSplit := esgnBody.2.span (·.isDigit)
        if edsSplit.1.isEmpty || !edsSplit.2.isEmpty then none
        else
          let ev := digitsVal edsSplit.1
          some (sgn * mantissa * (if esgnBody.1 then (10 : Rat) ^ ev else 1 / (10 : Rat) ^ ev))
      else none

/-- Python `float(token)` on a string: parse or raise `ValueError`. -/
def floatE (cs : List Char) : Except PyErr Rat :=
  match parseNumeral? cs with
  | some q => .ok q
  | none => .error .valueError

/-- Python `Decimal(s)` on a string: parse or raise `InvalidOperation`. -/
def decimalOfStr (s : String) : Except PyErr Rat :=
  match parseNumeral? s.data with
  | some q => .ok q
  | none => .error .invalidOperation

/-- Loop body of `parse_ratings`: for each comma token, strip it, skip it if
empty, otherwise `float` it; a `ValueError` is caught and the token is
silently dropped (the source catches exactly `ValueError` there). -/
def ratTokens : List (List Char) → Except PyErr (List Rat)
  | [] => .ok []
  | t :: ts =>
    match
      (let tr := pyTrim t
       if tr.isEmpty then Except.ok Option.none
       else (floatE tr).map Option.some) with
    | .ok none => ratTokens ts
    | .ok (some v) => (ratTokens ts).map (fun l => v :: l)
    | .error e => if e = PyErr.valueError then ratTokens ts else .error e

/-- Embedding of `Command.parse_ratings` (import_poi.py lines 196-215).
The result is an `Except` so that exception behaviour stays explicit; the
theorems show the function in fact never raises. -/
def parse_ratings (ratings_str : String) : Except PyErr (List Rat) :=
  let cs := ratings_str.data
  if cs.isEmpty then .ok []
  else
    let stripped := pyStripChars cs bracketChars
    if stripped.isEmpty then .ok []
    else ratTokens (splitOnChar ',' stripped)

/-- Modelled from the spec's words (section 4.1) for comparison with the
source: strip at most a single layer of bracket-like delimiters, one
character from the front and one from the back, if present. -/
def stripOneLayer (cs : List Char) : List Char :=
  let dropFront : List Char → List Char := fun l =>
    match l with
    | c :: r => if bracketChars.contains c then r else l
    | [] => l
  (dropFront ((dropFront cs).reverse)).reverse

/-- Modelled from the spec's words (section 4.1): the ratings parser as the
spec describes it, with single-layer bracket stripping, for comparison with
the source's `parse_ratings`. -/
def parse_ratings_spec_single (ratings_str : String) : Except PyErr (List Rat) :=
  let cs := ratings_str.data
  if cs.isEmpty then .ok []
  else
    let stripped := stripOneLayer cs
    if stripped.isEmpty then .ok []
    else ratTokens (splitOnChar ',' stripped)

/-- Python `str(v)` as used by `str(item['id'])` in `import_json`.  The
rendering of numbers and collections is abstracted (no claim depends on
stringified non-string ids); strings pass through unchanged, as in Python. -/
def pyStr : JVal → String
  | .str s => s
  | .null => "None"
  | .boolean true => "True"
  | .boolean false => "False"
  | .num q => if q.den = 1 then toString q.num else toString q.num ++ "/" ++ toString q.den
  | .arr _ => "[...]"
  | .obj _ => "(dict)"

/-- Python `Decimal(str(v))` as used by `import_json` on coordinate values:
numeric values round-trip through `str` exactly; strings are parsed;
`None`, booleans and collections stringify to non-numeric text, which
`Decimal` rejects with `InvalidOperation`. -/
def pyDecimalOfVal : JVal → Except PyErr Rat
  | .num q => .ok q
  | .str s => decimalOfStr s
  | _ => .error .invalidOperation

/-- Python `d.get(k, default)`: on a dict, look the key up with a default;
on any other value `.get` does not exist and raises `AttributeError`. -/
def pyGet (v : JVal) (k : String) (d : JVal) : Except PyErr JVal :=
  match v with
  | .obj fields => .ok (((fields.find? (fun kv => kv.1 == k)).map (fun kv => kv.2)).getD d)
  | _ => .error .attributeError

/-- Python `d[k]` with a string key: `KeyError` when the key is missing from
a dict, `TypeError` when the subscripted value is not a dict. -/
def pyIndex (v : JVal) (k : String) : Except PyErr JVal :=
  match v with
  | .obj fields =>
    match fields.find? (fun kv => kv.1 == k) with
    | some kv => .ok kv.2
    | none => .error .keyError
  | _ => .error .typeError

/-- PointOfInterest embeds the Django model of `poi/models.py` (the fields
the pipeline writes; `internal_id` and the timestamps are assigned by the
store and carry no algorithmic content). -/
structure PointOfInterest where
  external_id : JVal
  name : JVal
  latitude : Rat
  longitude : Rat
  category : JVal
  ratings_data : JVal
  description : JVal := JVal.null
  avg_rating : Option Rat := none

/-- Store models the database table as the list of saved records, in
insertion order. -/
abbrev Store := List PointOfInterest

/-- Declared range validators of the `latitude` field
(`MinValueValidator(-90), MaxValueValidator(90)`, models.py lines 16-20).
Django runs these only in `full_clean()`, which `save()` never calls. -/
def latitude_validators_pass (lat : Rat) : Bool :=
  decide (-90 ≤ lat) && decide (lat ≤ 90)

/-- Declared range validators of the `longitude` field
(`MinValueValidator(-180), MaxValueValidator(180)`, models.py lines 21-25). -/
def longitude_validators_pass (lon : Rat) : Bool :=
  decide (-180 ≤ lon) && decide (lon ≤ 180)

/-- Sequential `float(r)` over the non-null ratings, as evaluated by the
list comprehension `[float(r) for r in self.ratings_data if r is not None]`:
the first failing element raises. -/
def mapFloats : List JVal → Except PyErr (List Rat)
  | [] => .ok []
  | v :: vs => do
    let q ← match v with
      | .num q => Except.ok q
      | .boolean b => Except.ok (if b then (1 : Rat) else 0)
      | .str s => floatE s.data
      | _ => Except.error PyErr.typeError
    let qs ← mapFloats vs
    .ok (q :: qs)

/-- Python `float(r)` on an arbitrary value (the comprehension body):
numbers pass through, booleans coerce, strings are parsed (`ValueError` on
failure), everything else raises `TypeError`. -/
def pyFloatOfVal : JVal → Except PyErr Rat
  | .num q => .ok q
  | .boolean b => .ok (if b then (1 : Rat) else 0)
  | .str s => floatE s.data
  | _ => .error .typeError

/-- Average-rating computation performed by `PointOfInterest.save`
(models.py lines 61-73): falsy ratings give `None`; otherwise iterate,
drop nulls, `float` each entry, and average — with the whole comprehension
wrapped in `except (ValueError, TypeError): avg_rating = None`.  The only
errors `pyIter`/`mapFloats` produce are `ValueError` and `TypeError`, both
caught by that clause, so the error branch maps to `none`. -/
def computeAvg (rd : JVal) : Option Rat :=
  if pyTruthy rd then
    match (do
      let items ← pyIter rd
      mapFloats (items.filter (fun v => !v.isNull))) with
    | .error _ => none
    | .ok [] => none
    | .ok qs => some (qs.sum / (qs.length : Rat))
  else none

/-- Embedding of `PointOfInterest.save` (models.py lines 61-75):
recompute `avg_rating` from the current `ratings_data`, then insert.  The
abstract store accepts every record — in particular `save` performs no
validator check. -/
def PointOfInterest.save (p : PointOfInterest) (s : Store) : Store :=
  List.append s [{ p with avg_rating := computeAvg p.ratings_data }]

/-- Embedding of the `rating_count` property (models.py lines 77-82):
count of non-null entries, `0` for falsy ratings; iterating a non-iterable
ratings value raises (uncaught) `TypeError`. -/
def PointOfInterest.rating_count (p : PointOfInterest) : Except PyErr Nat :=
  if pyTruthy p.ratings_data then
    (pyIter p.ratings_data).map (fun items => (items.filter (fun v => !v.isNull)).length)
  else .ok 0

/-- XmlElem models an `xml.etree.ElementTree` element: tag, text, children. -/
inductive XmlElem where
  | mk (tag : String) (text : Option String) (children : List XmlElem)

/-- Tag accessor for an XML element. -/
def XmlElem.tag : XmlElem → String
  | .mk t _ _ => t

/-- Text accessor for an XML element (text is `None` for empty elements). -/
def XmlElem.text : XmlElem → Option String
  | .mk _ tx _ => tx

/-- Children accessor for an XML element. -/
def XmlElem.children : XmlElem → List XmlElem
  | .mk _ _ cs => cs

/-- Python `element.find(tag)` with a plain tag: first direct child with
that tag, or `None`. -/
def xmlFind (element : XmlElem) (tag : String) : Option XmlElem :=
  element.children.find? (fun c => c.tag == tag)

/-- All proper descendants of the elements of a list, in document order
(each element, then its own descendants, then its later siblings); this is
what `root.findall('.//tag')` iterates over below the root. -/
def descendantsList : List XmlElem → List XmlElem
  | [] => []
  | XmlElem.mk t tx cs :: rest =>
    XmlElem.mk t tx cs :: (descendantsList cs ++ descendantsList rest)

/-- Python `root.findall('.//tag')`: every element strictly below the root
with the given tag, in document order. -/
def findallTag (root : XmlElem) (tag : String) : List XmlElem :=
  (descendantsList root.children).filter (fun e => e.tag == tag)

/-- Embedding of `Command.get_xml_text` (import_poi.py lines 188-194): try
the tag names in order; a child whose text is truthy (present and
non-empty) wins and its stripped text is returned; otherwise fall through
to the next tag name; `None` when no tag name yields truthy text. -/
def get_xml_text (element : XmlElem) : List String → Option String
  | [] => none
  | tag_name :: rest =>
    match xmlFind element tag_name with
    | some elem =>
      match elem.text with
      | some txt => if !txt.isEmpty then some ⟨pyTrim txt.data⟩ else get_xml_text element rest
      | none => get_xml_text element rest
    | none => get_xml_text element rest

/-- Truthiness of an optional string, as used by `all([...])` and
`pratings or ''` in `import_xml` (`None` and `''` are falsy). -/
def truthyOpt : Option String → Bool
  | none => false
  | some s => !s.isEmpty

/-- Python `pratings or ''`. -/
def pyOrEmpty (o : Option String) : String :=
  match o with
  | some s => if !s.isEmpty then s else ""
  | none => ""

/-- Python `xs or ys` on lists: `xs` if non-empty, else `ys`. -/
def pyOrList (xs ys : List XmlElem) : List XmlElem :=
  if !xs.isEmpty then xs else ys

/-- CsvRow models one `csv.DictReader` row: the header keys in order, each
with its cell, where a `none` cell is the Python `None` a short row yields. -/
abbrev CsvRow := List (String × Option String)

/-- Python `row.get(k)` returning the cell when the key is a header column. -/
def rowFind (row : CsvRow) (k : String) : Option (Option String) :=
  (List.find? (fun kv => kv.1 == k) row).map (fun kv => kv.2)

/-- Python `row[k]`: the cell, or `KeyError` when the column is absent. -/
def rowIndex (row : CsvRow) (k : String) : Except PyErr (Option String) :=
  match rowFind row k with
  | some v => .ok v
  | none => .error .keyError

/-- CSV/XML cell values as stored on the record: missing cells are `None`. -/
def cellVal : Option String → JVal
  | none => JVal.null
  | some s => JVal.str s

/-- Python `Decimal(cell)` on a CSV cell: `Decimal(None)` raises
`TypeError`, a string cell is parsed. -/
def pyDecimalOfCell : Option String → Except PyErr Rat
  | none => .error .typeError
  | some s => decimalOfStr s

/-- Try-block body of the CSV row loop (import_poi.py lines 78-92), in the
source's evaluation order: ratings cell (via `.get` with `''` default,
then `.strip()` — which raises `AttributeError` on a `None` cell), then
`parse_ratings`, then the constructor arguments left to right.  Returns the
record to save, or the exception the body raises. -/
def csvRecord (row : CsvRow) : Except PyErr (Option PointOfInterest) := do
  let ratings_str ← match rowFind row "poi_ratings" with
    | none => Except.ok ""
    | some none => Except.error PyErr.attributeError
    | some (some v) => Except.ok (⟨pyTrim v.data⟩ : String)
  let ratings ← parse_ratings ratings_str
  let ext ← rowIndex row "poi_id"
  let nm ← rowIndex row "poi_name"
  let latCell ← rowIndex row "poi_latitude"
  let lat ← pyDecimalOfCell latCell
  let lonCell ← rowIndex row "poi_longitude"
  let lon ← pyDecimalOfCell lonCell
  let cat ← rowIndex row "poi_category"
  .ok (some
    { external_id := cellVal ext
      name := cellVal nm
      latitude := lat
      longitude := lon
      category := cellVal cat
      ratings_data := JVal.arr (ratings.map JVal.num)
      description := JVal.null })

/-- Try-block body of the JSON item loop (import_poi.py lines 117-129), in
the source's evaluation order: `coordinates` and `ratings` via `.get`
(raising `AttributeError` on non-dict items), then the constructor
arguments left to right. -/
def jsonRecord (item : JVal) : Except PyErr (Option PointOfInterest) := do
  let coordinates ← pyGet item "coordinates" (JVal.obj [])
  let ratings ← pyGet item "ratings" (JVal.arr [])
  let idv ← pyIndex item "id"
  let nm ← pyIndex item "name"
  let latv ← pyIndex coordinates "latitude"
  let lat ← pyDecimalOfVal latv
  let lonv ← pyIndex coordinates "longitude"
  let lon ← pyDecimalOfVal lonv
  let cat ← pyIndex item "category"
  let desc ← pyGet item "description" (JVal.str "")
  .ok (some
    { external_id := JVal.str (pyStr idv)
      name := nm
      latitude := lat
      longitude := lon
      category := cat
      ratings_data := ratings
      description := desc })

/-- Try-block body of the XML element loop (import_poi.py lines 155-178):
resolve the six alias groups, silently skip the element (no exception, no
count) unless the five required fields are truthy, then parse ratings and
build the record, `Decimal` failures raising `InvalidOperation`. -/
def xmlRecord (poi_elem : XmlElem) : Except PyErr (Option PointOfInterest) := do
  let pid := get_xml_text poi_elem ["pid", "id", "poi_id"]
  let pname := get_xml_text poi_elem ["pname", "name", "poi_name"]
  let platitude := get_xml_text poi_elem ["platitude", "latitude", "poi_latitude"]
  let plongitude := get_xml_text poi_elem ["plongitude", "longitude", "poi_longitude"]
  let pcategory := get_xml_text poi_elem ["pcategory", "category", "poi_category"]
  let pratings := get_xml_text poi_elem ["pratings", "ratings", "poi_ratings"]
  if !(truthyOpt pid && truthyOpt pname && truthyOpt platitude &&
       truthyOpt plongitude && truthyOpt pcategory) then
    .ok none
  else do
    let ratings ← parse_ratings (pyOrEmpty pratings)
    let lat ← decimalOfStr (platitude.getD "")
    let lon ← decimalOfStr (plongitude.getD "")
    .ok (some
      { external_id := cellVal pid
        name := cellVal pname
        latitude := lat
        longitude := lon
        category := cellVal pcategory
        ratings_data := JVal.arr (ratings.map JVal.num)
        description := JVal.null })

/-- Exceptions caught by the CSV row handler:
`except (KeyError, ValueError, InvalidOperation)`. -/
def csvCaught : PyErr → Bool
  | .keyError => true
  | .valueError => true
  | .invalidOperation => true
  | _ => false

/-- Exceptions caught by the JSON item handler:
`except (KeyError, ValueError, InvalidOperation)`. -/
def jsonCaught : PyErr → Bool
  | .keyError => true
  | .valueError => true
  | .invalidOperation => true
  | _ => false

/-- Exceptions caught by the XML element handler:
`except (ValueError, InvalidOperation)`. -/
def xmlCaught : PyErr → Bool
  | .valueError => true
  | .invalidOperation => true
  | _ => false

/-- Shared per-row loop of the three importers: build the record for each
row; on success save it and count it (or, for `ok none`, silently continue);
on an exception of a caught class, skip the row and continue; on any other
exception, abort with that exception and the store as it stands. -/
def runRows (α : Type) (record : α → Except PyErr (Option PointOfInterest))
    (caught : PyErr → Bool) : List α → Store → Nat → Except PyErr Nat × Store
  | [], s, n => (.ok n, s)
  | r :: rs, s, n =>
    match record r with
    | .ok (some p) => runRows α record caught rs (p.save s) (n + 1)
    | .ok none => runRows α record caught rs s n
    | .error e => if caught e then runRows α record caught rs s n else (.error e, s)

/-- Django `transaction.atomic` around a file import: when the body ends in
an uncaught exception, the store is rolled back to its state at entry. -/
def atomically (body : Store → Except PyErr Nat × Store) (s : Store) :
    Except PyErr Nat × Store :=
  match body s with
  | (.ok n, t) => (.ok n, t)
  | (.error e, _) => (.error e, s)

/-- Embedding of `Command.import_csv` (import_poi.py lines 67-100): the
`DictReader` rows streamed through the row loop, under `transaction.atomic`. -/
def import_csv (rows : List CsvRow) (s : Store) : Except PyErr Nat × Store :=
  atomically (fun t => runRows CsvRow csvRecord csvCaught rows t 0) s

/-- Embedding of `Command.import_json` (import_poi.py lines 102-139): the
`json.load` outcome (a parse failure raises inside the atomic block before
any row), a dict wrapped as a one-element list, otherwise iterated, then
the item loop. -/
def import_json (doc : Except PyErr JVal) (s : Store) : Except PyErr Nat × Store :=
  atomically (fun t =>
    match doc with
    | .error e => (.error e, t)
    | .ok data =>
      match (match data with
             | .obj fields => Except.ok [JVal.obj fields]
             | d => pyIter d) with
      | .error e => (.error e, t)
      | .ok items => runRows JVal jsonRecord jsonCaught items t 0) s

/-- Embedding of `Command.import_xml` (import_poi.py lines 141-186): the
`ET.parse` outcome, candidate elements `.//poi` or else
`.//point_of_interest` or else the root itself, then the element loop. -/
def import_xml (doc : Except PyErr XmlElem) (s : Store) : Except PyErr Nat × Store :=
  atomically (fun t =>
    match doc with
    | .error e => (.error e, t)
    | .ok root =>
      let elems := pyOrList (findallTag root "poi")
        (pyOrList (findallTag root "point_of_interest") [root])
      runRows XmlElem xmlRecord xmlCaught elems t 0) s

/-- Extension part of `os.path.splitext`: from the last dot of the final
path component, where leading dots of the component do not start an
extension. -/
def splitextExt (cs : List Char) : List Char :=
  let base := (cs.reverse.takeWhile (fun c => c != '/')).reverse
  let core := base.dropWhile (fun c => c = '.')
  let revTail := core.reverse.takeWhile (fun c => c != '.')
  if revTail.length = core.length then [] else '.' :: revTail.reverse

/-- Extension used for dispatch in `import_file`
(`_, ext = os.path.splitext(file_path.lower())`, line 56): the whole path
is lowercased before the extension is extracted. -/
def fileExt (p : String) : String :=
  ⟨splitextExt (p.data.map Char.toLower)⟩

/-- FileData models the raw bytes of one input file through the three
parses the importers can apply to them. -/
structure FileData where
  asCsv : List CsvRow
  asJson : Except PyErr JVal
  asXml : Except PyErr XmlElem

/-- Embedding of `Command.import_file` (import_poi.py lines 54-65):
dispatch on the lowercased extension; unrecognized extensions raise
(`CommandError('Unsupported file format: ...')`, modelled by
`PyErr.unsupportedFormat`) before any record is read. -/
def import_file (path : String) (fd : FileData) (s : Store) : Except PyErr Nat × Store :=
  let ext := fileExt path
  if ext = ".csv" then import_csv fd.asCsv s
  else if ext = ".json" then import_json fd.asJson s
  else if ext = ".xml" then import_xml fd.asXml s
  else (.error (.unsupportedFormat ext), s)

/-- CmdErr models the `CommandError`s `handle` raises: a missing file, or
any exception from one file wrapped with that file's path. -/
inductive CmdErr where
  | fileNotFound (path : String)
  | processing (path : String) (err : PyErr)
deriving DecidableEq

/-- File loop of `Command.handle` (import_poi.py lines 35-52): per file,
check existence (raising `CommandError` unwrapped), run `import_file`, add
its count; any exception from the file is wrapped with the file path and
re-raised, ending the loop. -/
def handleGo : List (String × Option FileData) → Store → Nat → Except CmdErr Nat × Store
  | [], s, n => (.ok n, s)
  | (path, fdOpt) :: rest, s, n =>
    match fdOpt with
    | none => (.error (.fileNotFound path), s)
    | some fd =>
      match import_file path fd s with
      | (.ok m, s1) => handleGo rest s1 (n + m)
      | (.error e, s1) => (.error (.processing path e), s1)

/-- Embedding of `Command.handle` (import_poi.py lines 27-52): optional
clear-all, then the file loop; a file given as `none` models a path for
which `os.path.exists` is false. -/
def handle (files : List (String × Option FileData)) (clear : Bool) (s : Store) :
    Except CmdErr Nat × Store :=
  handleGo files (if clear then ([] : Store) else s) 0

/-- Helper vocabulary for the field-resolution claims: the value an alias
contributes in `get_xml_text`, namely the (unstripped) text of its first
matching child when that text is truthy. -/
def tagTruthyText (element : XmlElem) (t : String) : Option String :=
  match xmlFind element t with
  | some e =>
    match e.text with
    | some s => if !s.isEmpty then some s else none
    | none => none
  | none => none

/-- List of numeric entries of a ratings sequence, in order (the values the
spec's aggregation contract averages). -/
def numsOf (l : List JVal) : List Rat :=
  l.filterMap (fun v =>
    match v with
    | .num q => some q
    | _ => none)

/-- Record with given ratings and neutral other fields, for stating
aggregation facts about `save` and `rating_count`. -/
def mkRec (rd : JVal) : PointOfInterest :=
  { external_id := JVal.str ""
    name := JVal.str ""
    latitude := 0
    longitude := 0
    category := JVal.str ""
    ratings_data := rd }

/-- Concrete CSV row with out-of-range latitude 95 (claim C2). -/
def row95 : CsvRow :=
  [("poi_id", some "X1"), ("poi_name", some "Tower"), ("poi_latitude", some "95"),
   ("poi_longitude", some "10"), ("poi_category", some "misc"), ("poi_ratings", some "[4]")]

/-- Record that `import_csv` inserts for `row95`. -/
def rec95 : PointOfInterest :=
  { external_id := JVal.str "X1"
    name := JVal.str "Tower"
    latitude := 95
    longitude := 10
    category := JVal.str "misc"
    ratings_data := JVal.arr [JVal.num 4]
    description := JVal.null
    avg_rating := some 4 }

/-- Valid one-item JSON document content (claims C1 and C3). -/
def goodItem : JVal :=
  .obj [("id", .str "1"), ("name", .str "A"),
        ("coordinates", .obj [("latitude", .num 1), ("longitude", .num 2)]),
        ("category", .str "c"), ("ratings", .arr [])]

/-- File whose JSON parse fails (a malformed document: `json.load` raises,
`JSONDecodeError` being a `ValueError`). -/
def fdBadJson : FileData :=
  ⟨[], Except.error PyErr.valueError, Except.error PyErr.parseError⟩

/-- File whose JSON parse yields one valid item. -/
def fdGoodJson : FileData :=
  ⟨[], Except.ok (JVal.arr [goodItem]), Except.error PyErr.parseError⟩

/-- Record that `import_json` inserts for `goodItem`. -/
def recGood : PointOfInterest :=
  { external_id := JVal.str "1"
    name := JVal.str "A"
    latitude := 1
    longitude := 2
    category := JVal.str "c"
    ratings_data := JVal.arr []
    description := JVal.str ""
    avg_rating := none }

/-- CSV row whose latitude cell fails `Decimal`, a skip case. -/
def badRow : CsvRow :=
  [("poi_id", some "1"), ("poi_name", some "N"), ("poi_latitude", some "x"),
   ("poi_longitude", some "0"), ("poi_category", some "c")]

/-- XML element with the five required fields present through fallback
aliases, and no ratings tag (claim C9). -/
def elem9 : XmlElem :=
  XmlElem.mk "poi" none
    [XmlElem.mk "pid" (some "9") [], XmlElem.mk "name" (some "Pier") [],
     XmlElem.mk "latitude" (some "1") [], XmlElem.mk "longitude" (some "2") [],
     XmlElem.mk "category" (some "fun") []]

/-- CSV row with the five required fields and no ratings column (claim C9). -/
def row9 : CsvRow :=
  [("poi_id", some "9"), ("poi_name", some "Pier"), ("poi_latitude", some "1"),
   ("poi_longitude", some "2"), ("poi_category", some "fun")]

/-- Record imported for `row9` and `elem9`. -/
def rec9 : PointOfInterest :=
  { external_id := JVal.str "9"
    name := JVal.str "Pier"
    latitude := 1
    longitude := 2
    category := JVal.str "fun"
    ratings_data := JVal.arr []
    description := JVal.null
    avg_rating := none }

/-- XML element whose only latitude-alias child has whitespace-only text
(claim C8 counterexample). -/
def wsElem : XmlElem :=
  XmlElem.mk "poi" none [XmlElem.mk "latitude" (some "   ") []]

/-- XML element with no `platitude` child but a `latitude` child carrying
text (claim C8's alias-fallback instance). -/
def latElem : XmlElem :=
  XmlElem.mk "poi" none [XmlElem.mk "latitude" (some " 41.5 ") []]

/-- Empty file content used by dispatch witnesses. -/
def fdEmpty : FileData :=
  ⟨[], Except.ok (JVal.arr []), Except.error PyErr.parseError⟩

lemma pyBindOk {β γ : Type} (a : β) (f : β → Except PyErr γ) :
    (Except.ok a : Except PyErr β) >>= f = f a := rfl

lemma pyBindErr {β γ : Type} (e : PyErr) (f : β → Except PyErr γ) :
    (Except.error e : Except PyErr β) >>= f = Except.error e := rfl

lemma atomically_error (body : Store → Except PyErr Nat × Store) (s : Store)
    (h : ∃ e, (atomically body s).1 = Except.error e) : (atomically body s).2 = s := by
  obtain ⟨e, he⟩ := h
  unfold atomically at *
  rcases hb : body s with ⟨r, t⟩
  rcases r with n | e2 <;> simp [hb] at he ⊢

lemma runRows_skip (α : Type) (record : α → Except PyErr (Option PointOfInterest))
    (caught : PyErr → Bool) (r : α) (rs : List α) (s : Store) (n : Nat) (e : PyErr)
    (h1 : record r = Except.error e) (h2 : caught e = true) :
    runRows α record caught (r :: rs) s n = runRows α record caught rs s n := by
  simp [runRows, h1, h2]

lemma runRows_ok_append (α : Type) (record : α → Except PyErr (Option PointOfInterest))
    (caught : PyErr → Bool) :
    ∀ (rows : List α) (s : Store) (n m : Nat) (s2 : Store),
      runRows α record caught rows s n = (Except.ok m, s2) → ∃ nw, s2 = s ++ nw := by
  intro rows
  induction rows with
  | nil =>
    intro s n m s2 h
    simp [runRows] at h
    exact ⟨[], by simp [h.2]⟩
  | cons r rs ih =>
    intro s n m s2 h
    simp only [runRows] at h
    rcases hr : record r with e | p
    · simp only [hr] at h
      by_cases hc : caught e = true
      · rw [if_pos hc] at h
        exact ih s n m s2 h
      · rw [if_neg hc] at h
        simp at h
    · simp only [hr] at h
      rcases p with _ | p
      · exact ih s n m s2 h
      · obtain ⟨nw, hnw⟩ := ih (p.save s) (n + 1) m s2 h
        refine ⟨{ p with avg_rating := computeAvg p.ratings_data } :: nw, ?_⟩
        simpa [PointOfInterest.save] using hnw

/-- Claim C1: each file's import is all-or-nothing with respect to fatal
errors.  For each of the three importers, a run that ends in an uncaught
exception leaves the store exactly as it was when the file began (the
`transaction.atomic` rollback); a row whose processing raises a caught
(skip-class) exception changes nothing — the loop continues on the same
store, so earlier insertions from the file stay in place — and a run that
completes only ever appends records to the store it started from. -/
theorem claim1_file_atomicity :
    (∀ (rows : List CsvRow) (s : Store),
      (∃ e, (import_csv rows s).1 = Except.error e) → (import_csv rows s).2 = s) ∧
    (∀ (doc : Except PyErr JVal) (s : Store),
      (∃ e, (import_json doc s).1 = Except.error e) → (import_json doc s).2 = s) ∧
    (∀ (doc : Except PyErr XmlElem) (s : Store),
      (∃ e, (import_xml doc s).1 = Except.error e) → (import_xml doc s).2 = s) ∧
    (∀ (α : Type) (record : α → Except PyErr (Option PointOfInterest))
       (caught : PyErr → Bool) (r : α) (rs : List α) (s : Store) (n : Nat) (e : PyErr),
      record r = Except.error e → caught e = true →
      runRows α record caught (r :: rs) s n = runRows α record caught rs s n) ∧
    (∀ (α : Type) (record : α → Except PyErr (Option PointOfInterest))
       (caught : PyErr → Bool) (rows : List α) (s : Store) (n m : Nat) (s2 : Store),
      runRows α record caught rows s n = (Except.ok m, s2) → ∃ nw, s2 = s ++ nw) := by
  refine ⟨?_, ?_, ?_, ?_, ?_⟩
  · intro rows s h
    exact atomically_error _ s h
  · intro doc s h
    exact atomically_error _ s h
  · intro doc s h
    exact atomically_error _ s h
  · intro α record caught r rs s n e h1 h2
    exact runRows_skip α record caught r rs s n e h1 h2
  · intro α record caught rows s n m s2 h
    exact runRows_ok_append α record caught rows s n m s2 h

/-- Witness for C1: a JSON file whose second item is a bare number raises an
uncaught `AttributeError` after the first item was already inserted — the
file's store state rolls back to the empty store it began with; and a CSV
row whose latitude fails `Decimal` is a caught skip that leaves the loop
state unchanged. -/
theorem claim1_witness :
    (import_json (Except.ok (JVal.arr [goodItem, JVal.num 5])) []).2 = ([] : Store) ∧
    runRows CsvRow csvRecord csvCaught [badRow, row95] [] 0 =
      runRows CsvRow csvRecord csvCaught [row95] [] 0 := by
  constructor
  · exact claim1_file_atomicity.2.1 (Except.ok (JVal.arr [goodItem, JVal.num 5])) []
      ⟨PyErr.attributeError, by with_unfolding_all rfl⟩
  · exact claim1_file_atomicity.2.2.2.1 CsvRow csvRecord csvCaught badRow [row95] [] 0
      PyErr.invalidOperation (by with_unfolding_all rfl) rfl

/-- Claim C2 (code bug): the store-level insert does not reject latitude 95.
The model declares range validators on `latitude` (models.py lines 16-20),
but `save()` never runs them (Django validators only run in `full_clean`),
so the CSV row with latitude 95 is inserted — not skipped — even though the
declared validator rejects 95. -/
theorem claim2_out_of_range_latitude_inserted :
    import_csv [row95] [] = (Except.ok 1, [rec95]) ∧
    latitude_validators_pass rec95.latitude = false := by
  constructor
  · with_unfolding_all rfl
  · with_unfolding_all rfl

lemma import_file_error_store (path : String) (fd : FileData) (s : Store) (e : PyErr)
    (h : (import_file path fd s).1 = Except.error e) : (import_file path fd s).2 = s := by
  unfold import_file at *
  by_cases h1 : fileExt path = ".csv"
  · simp only [h1, if_pos rfl] at h ⊢
    exact atomically_error _ s ⟨e, h⟩
  · by_cases h2 : fileExt path = ".json"
    · simp only [h1, h2, if_neg, if_pos rfl, reduceIte] at h ⊢
      exact atomically_error _ s ⟨e, h⟩
    · by_cases h3 : fileExt path = ".xml"
      · simp only [h1, h2, h3, reduceIte] at h ⊢
        exact atomically_error _ s ⟨e, h⟩
      · simp only [h1, h2, h3, reduceIte] at h ⊢

lemma handleGo_count_shift :
    ∀ (files : List (String × Option FileData)) (s : Store) (n : Nat),
      handleGo files s n =
        (match handleGo files s 0 with
         | (Except.ok m, t) => (Except.ok (n + m), t)
         | (Except.error c, t) => (Except.error c, t)) := by
  intro files
  induction files with
  | nil => intro s n; simp [handleGo]
  | cons f rest ih =>
    intro s n
    rcases f with ⟨path, fdOpt⟩
    rcases fdOpt with _ | fd
    · simp [handleGo]
    · rcases hi : import_file path fd s with ⟨r, s1⟩
      rcases r with e | m
      · simp only [handleGo, hi]
      · simp only [handleGo, hi]
        rw [ih s1 (n + m), ih s1 (0 + m)]
        rcases hg : handleGo rest s1 0 with ⟨r2, t⟩
        rcases r2 with c2 | m2 <;> simp [Nat.add_assoc]

/-- Claim C3 (amended): a fatal per-file error is wrapped with that file's
path, the failing file's insertions are rolled back, and the orchestrator
does NOT continue — `handle` re-raises the wrapped `CommandError`, ending
the run with the remaining files unprocessed; a file that succeeds passes
its store and count on to the processing of the remaining files, so a later
failure leaves earlier files' imports in place. -/
theorem claim3_fatal_file_error_aborts_run :
    (∀ (path : String) (fd : FileData) (rest : List (String × Option FileData))
       (s : Store) (e : PyErr),
      (import_file path fd s).1 = Except.error e →
      handle ((path, some fd) :: rest) false s =
        (Except.error (CmdErr.processing path e), s)) ∧
    (∀ (path : String) (fd : FileData) (rest : List (String × Option FileData))
       (s s1 : Store) (n : Nat),
      import_file path fd s = (Except.ok n, s1) →
      handle ((path, some fd) :: rest) false s =
        (match handle rest false s1 with
         | (Except.ok m, t) => (Except.ok (n + m), t)
         | (Except.error c, t) => (Except.error c, t))) := by
  constructor
  · intro path fd rest s e h
    have hs : (import_file path fd s).2 = s := import_file_error_store path fd s e h
    have hpair : import_file path fd s = (Except.error e, s) := by
      rcases hp : import_file path fd s with ⟨r, t⟩
      rw [hp] at h hs
      simp only at h hs
      rw [h, hs]
    simp [handle, handleGo, hpair]
  · intro path fd rest s s1 n h
    simp [handle, handleGo, h]
    exact handleGo_count_shift rest s1 n

/-- Counterexample for C3 as stated: with a malformed first file and a
valid second file, the run ends in the wrapped error and the store stays
empty — the second file is never processed, although alone it imports its
record; the orchestrator does not continue past a fatal per-file error. -/
theorem claim3_counterexample :
    handle [("a.json", some fdBadJson), ("b.json", some fdGoodJson)] false [] =
      (Except.error (CmdErr.processing "a.json" PyErr.valueError), []) ∧
    handle [("b.json", some fdGoodJson)] false [] = (Except.ok 1, [recGood]) := by
  constructor
  · with_unfolding_all rfl
  · with_unfolding_all rfl

/-- Witness for C3 (amended): a fatal single-file run produced by applying
the amended theorem at a concrete malformed file. -/
theorem claim3_witness :
    handle [("c.json", some fdBadJson)] false [] =
      (Except.error (CmdErr.processing "c.json" PyErr.valueError), []) :=
  claim3_fatal_file_error_aborts_run.1 "c.json" fdBadJson [] [] PyErr.valueError
    (by with_unfolding_all rfl)

lemma dropWhile_all_false (p : Char → Bool) (l : List Char) (h : ∀ c ∈ l, p c = false) :
    l.dropWhile p = l := by
  cases l with
  | nil => rfl
  | cons c cs =>
    rw [List.dropWhile_cons_of_neg]
    simp [h c (by simp)]

lemma dropWhile_all_true (p : Char → Bool) (l : List Char) (h : ∀ c ∈ l, p c = true) :
    l.dropWhile p = [] := by
  induction l with
  | nil => rfl
  | cons c cs ih =>
    rw [List.dropWhile_cons_of_pos (h c (by simp))]
    exact ih (fun x hx => h x (by simp [hx]))

lemma pyStripChars_of_no_bad (cs bad : List Char) (h : ∀ c ∈ cs, bad.contains c = false) :
    pyStripChars cs bad = cs := by
  unfold pyStripChars
  rw [dropWhile_all_false _ cs h]
  rw [List.rdropWhile_eq_self_iff]
  intro hl
  have hx := h (cs.getLast hl) (List.getLast_mem hl)
  simpa using hx

lemma ws_not_bracket (c : Char) (h : c.isWhitespace = true) :
    bracketChars.contains c = false := by
  by_contra hb
  rw [Bool.not_eq_false] at hb
  have hc : c = '[' ∨ c = ']' ∨ c = '(' ∨ c = ')' ∨ c = '\x7b' ∨ c = '\x7d' := by
    simpa [bracketChars] using hb
  rcases hc with h1 | h1 | h1 | h1 | h1 | h1 <;> subst h1 <;> exact absurd h (by decide)

lemma splitOnChar_no_sep (sep : Char) (cs : List Char) (h : ∀ c ∈ cs, ¬c = sep) :
    splitOnChar sep cs = [cs] := by
  induction cs with
  | nil => rfl
  | cons c cs ih =>
    have hrec := ih (fun x hx => h x (by simp [hx]))
    simp only [splitOnChar, if_neg (h c (by simp)), hrec]

lemma floatE_error (cs : List Char) (e : PyErr) (h : floatE cs = Except.error e) :
    e = PyErr.valueError := by
  unfold floatE at h
  rcases hp : parseNumeral? cs with _ | q <;> rw [hp] at h <;> simp at h
  · exact h.symm

lemma ratTokens_total (ts : List (List Char)) : ∃ l, ratTokens ts = Except.ok l := by
  induction ts with
  | nil => exact ⟨[], rfl⟩
  | cons t ts ih =>
    obtain ⟨l, hl⟩ := ih
    by_cases hemp : (pyTrim t).isEmpty
    · exact ⟨l, by simp [ratTokens, hemp, hl]⟩
    · rcases hf : parseNumeral? (pyTrim t) with _ | q
      · exact ⟨l, by simp [ratTokens, hemp, floatE, hf, hl, Except.map]⟩
      · exact ⟨q :: l, by simp [ratTokens, hemp, floatE, hf, hl, Except.map]⟩

lemma ratTokens_mem :
    ∀ (ts : List (List Char)) (l : List Rat), ratTokens ts = Except.ok l →
      ∀ v ∈ l, ∃ t, t ∈ ts ∧ parseNumeral? (pyTrim t) = some v := by
  intro ts
  induction ts with
  | nil =>
    intro l hl v hv
    simp only [ratTokens] at hl
    injection hl with hl
    subst hl
    simp at hv
  | cons t ts ih =>
    intro l hl v hv
    by_cases hemp : (pyTrim t).isEmpty
    · simp only [ratTokens, hemp, if_pos rfl] at hl
      obtain ⟨u, hu, hpu⟩ := ih l hl v hv
      exact ⟨u, by simp [hu], hpu⟩
    · rcases hf : parseNumeral? (pyTrim t) with _ | q
      · simp only [ratTokens, hemp, floatE, hf] at hl
        simp at hl
        obtain ⟨u, hu, hpu⟩ := ih l hl v hv
        exact ⟨u, by simp [hu], hpu⟩
      · simp only [ratTokens, hemp, floatE, hf] at hl
        simp only [Bool.false_eq_true, if_false, Except.map] at hl
        rcases hts : ratTokens ts with e2 | l0 <;> rw [hts] at hl <;> simp at hl
        subst hl
        rcases List.mem_cons.mp hv with hq | hmem
        · exact ⟨t, by simp, by rw [hq]; exact hf⟩
        · obtain ⟨u, hu, hpu⟩ := ih l0 hts v hmem
          exact ⟨u, by simp [hu], hpu⟩

/-- Claim C4: the ratings parser never raises — every input string yields an
`ok` result; empty or whitespace-only input yields the empty list; and every
returned value is the successful `float` parse of one of the comma tokens of
the bracket-stripped input (tokens that fail to parse are dropped, never an
error). -/
theorem claim4_parse_ratings_safe :
    (∀ s : String, ∃ l, parse_ratings s = Except.ok l) ∧
    (∀ s : String, s.data.all Char.isWhitespace = true → parse_ratings s = Except.ok []) ∧
    (∀ (s : String) (l : List Rat) (v : Rat), parse_ratings s = Except.ok l → v ∈ l →
      ∃ t, t ∈ splitOnChar ',' (pyStripChars s.data bracketChars) ∧
        parseNumeral? (pyTrim t) = some v) := by
  refine ⟨?_, ?_, ?_⟩
  · intro s
    unfold parse_ratings
    by_cases he : s.data.isEmpty
    · exact ⟨[], by simp [he]⟩
    · by_cases hs : (pyStripChars s.data bracketChars).isEmpty
      · exact ⟨[], by simp [he, hs]⟩
      · obtain ⟨l, hl⟩ := ratTokens_total (splitOnChar ',' (pyStripChars s.data bracketChars))
        exact ⟨l, by simp [he, hs, hl]⟩
  · intro s h
    have hall : ∀ c ∈ s.data, c.isWhitespace = true := by simpa [List.all_eq_true] using h
    unfold parse_ratings
    by_cases he : s.data.isEmpty
    · simp [he]
    · have h1 : pyStripChars s.data bracketChars = s.data :=
        pyStripChars_of_no_bad s.data bracketChars
          (fun c hc => ws_not_bracket c (hall c hc))
      have h2 : splitOnChar ',' s.data = [s.data] :=
        splitOnChar_no_sep ',' s.data (fun c hc hceq => by
          have := hall c hc
          rw [hceq] at this
          exact absurd this (by decide))
      have h3 : pyTrim s.data = [] := by
        unfold pyTrim
        rw [dropWhile_all_true _ s.data hall]
        simp
      simp [he, h1, h2, ratTokens, h3]
  · intro s l v hl hv
    unfold parse_ratings at hl
    by_cases he : s.data.isEmpty
    · rw [if_pos he] at hl
      injection hl with hl
      subst hl
      simp at hv
    · rw [if_neg he] at hl
      by_cases hs : (pyStripChars s.data bracketChars).isEmpty
      · rw [if_pos hs] at hl
        injection hl with hl
        subst hl
        simp at hv
      · rw [if_neg hs] at hl
        exact ratTokens_mem _ l hl v hv

/-- Witness for C4: a whitespace-only string parses to the empty list, and
the value 4 returned for the input with the unparseable token `x` comes
from the token `4` of the stripped, comma-split input. -/
theorem claim4_witness :
    parse_ratings " \t " = Except.ok [] ∧
    ∃ t, t ∈ splitOnChar ',' (pyStripChars "[4,x]".data bracketChars) ∧
      parseNumeral? (pyTrim t) = some 4 := by
  constructor
  · exact claim4_parse_ratings_safe.2.1 " \t " (by decide)
  · exact claim4_parse_ratings_safe.2.2 "[4,x]" [4] 4 (by with_unfolding_all rfl)
      (by with_unfolding_all decide)

lemma rdropWhile_append_rtakeWhile (p : Char → Bool) (l : List Char) :
    l.rdropWhile p ++ l.rtakeWhile p = l := by
  rw [List.rdropWhile, List.rtakeWhile, ← List.reverse_append,
    List.takeWhile_append_dropWhile, List.reverse_reverse]

lemma head_dropWhile_not_p (p : Char → Bool) (l : List Char) :
    ∀ c, (l.dropWhile p).head? = some c → p c = false := by
  induction l with
  | nil => intro c hc; simp at hc
  | cons x xs ih =>
    intro c hc
    by_cases hp : p x
    · rw [List.dropWhile_cons_of_pos hp] at hc
      exact ih c hc
    · rw [List.dropWhile_cons_of_neg hp] at hc
      simp at hc
      subst hc
      simpa using hp

/-- Claim C5 (amended): `parse_ratings` strips ALL enclosing bracket-like
delimiter characters from both ends — not just a single layer: the input
decomposes as bracket characters, then the stripped core, then bracket
characters, and the core neither starts nor ends with a bracket character.
In particular both layers of `[[4,5]]` are removed (see the
counterexample theorem for the concrete divergence from the claim). -/
theorem claim5_strip_all_brackets : ∀ cs : List Char,
    ∃ pre suf, cs = pre ++ pyStripChars cs bracketChars ++ suf ∧
      (∀ c ∈ pre, c ∈ bracketChars) ∧ (∀ c ∈ suf, c ∈ bracketChars) ∧
      (∀ c, (pyStripChars cs bracketChars).head? = some c → c ∉ bracketChars) ∧
      (∀ c, (pyStripChars cs bracketChars).getLast? = some c → c ∉ bracketChars) := by
  intro cs
  refine ⟨cs.takeWhile (bracketChars.contains ·),
    (cs.dropWhile (bracketChars.contains ·)).rtakeWhile (bracketChars.contains ·),
    ?_, ?_, ?_, ?_, ?_⟩
  · conv_lhs => rw [← List.takeWhile_append_dropWhile
      (p := (bracketChars.contains ·)) (l := cs)]
    rw [pyStripChars, List.append_assoc,
      rdropWhile_append_rtakeWhile (bracketChars.contains ·)
        (cs.dropWhile (bracketChars.contains ·))]
  · intro c hc
    have hx := List.mem_takeWhile_imp hc
    simpa using hx
  · intro c hc
    have hx := List.mem_rtakeWhile_imp hc
    simpa using hx
  · intro c hc
    have hpre := List.rdropWhile_prefix (p := (bracketChars.contains ·))
      (l := cs.dropWhile (bracketChars.contains ·))
    obtain ⟨t, ht⟩ := hpre
    rw [pyStripChars] at hc
    rcases hs : (cs.dropWhile (bracketChars.contains ·)).rdropWhile (bracketChars.contains ·) with
      _ | ⟨x, ts⟩
    · rw [hs] at hc; simp at hc
    · rw [hs] at hc ht
      simp at hc
      have hhead : (cs.dropWhile (bracketChars.contains ·)).head? = some x := by
        rw [← ht]; rfl
      have hpx := head_dropWhile_not_p (bracketChars.contains ·) cs x hhead
      subst hc
      simpa using hpx
  · intro c hc
    rw [pyStripChars] at hc
    have hne : (cs.dropWhile (bracketChars.contains ·)).rdropWhile (bracketChars.contains ·) ≠ [] := by
      intro h0
      rw [h0] at hc
      simp at hc
    have hlast := List.rdropWhile_last_not (p := (bracketChars.contains ·))
      (l := cs.dropWhile (bracketChars.contains ·)) hne
    rw [List.getLast?_eq_getLast _ hne] at hc
    injection hc with hc
    rw [← hc]
    simpa using hlast

/-- Counterexample for C5 as stated: on `[[4,5]]` the source parser strips
both bracket layers (`str.strip('[](){}')` removes every leading/trailing
bracket character) and returns `[4.0, 5.0]`, while the claimed single-layer
stripping would leave the inner brackets in the tokens, every token would
fail to parse, and the result would be empty. -/
theorem claim5_counterexample :
    parse_ratings "[[4,5]]" = Except.ok [4, 5] ∧
    parse_ratings_spec_single "[[4,5]]" = Except.ok [] ∧
    pyStripChars ("[[4,5]]".data) bracketChars ≠ stripOneLayer ("[[4,5]]".data) := by
  refine ⟨by with_unfolding_all rfl, by with_unfolding_all rfl, by decide⟩

/-- Witness for C5 (amended): the decomposition at the doubly-bracketed
input, obtained by applying the amended theorem there. -/
theorem claim5_witness :
    ∃ pre suf, "[[4,5]]".data = pre ++ pyStripChars ("[[4,5]]".data) bracketChars ++ suf ∧
      (∀ c ∈ pre, c ∈ bracketChars) ∧ (∀ c ∈ suf, c ∈ bracketChars) ∧
      (∀ c, (pyStripChars ("[[4,5]]".data) bracketChars).head? = some c → c ∉ bracketChars) ∧
      (∀ c, (pyStripChars ("[[4,5]]".data) bracketChars).getLast? = some c → c ∉ bracketChars) :=
  claim5_strip_all_brackets ("[[4,5]]".data)

lemma mapFloats_cons (v : JVal) (vs : List JVal) :
    mapFloats (v :: vs) =
      pyFloatOfVal v >>= fun q => mapFloats vs >>= fun qs => Except.ok (q :: qs) := by
  cases v <;> rfl

lemma mapFloats_nums : ∀ l : List JVal, (∀ v ∈ l, v = JVal.null ∨ ∃ q, v = JVal.num q) →
    mapFloats (l.filter (fun v => !v.isNull)) = Except.ok (numsOf l) := by
  intro l
  induction l with
  | nil => intro h; rfl
  | cons v vs ih =>
    intro h
    have hrec := ih (fun x hx => h x (by simp [hx]))
    rcases h v (by simp) with hn | ⟨q, hq⟩
    · subst hn
      simpa [numsOf, JVal.isNull] using hrec
    · subst hq
      have h1 : List.filter (fun v => !v.isNull) (JVal.num q :: vs) =
          JVal.num q :: List.filter (fun v => !v.isNull) vs := by
        simp [List.filter_cons, JVal.isNull]
      have h2 : pyFloatOfVal (JVal.num q) = Except.ok q := rfl
      have h3 : numsOf (JVal.num q :: vs) = q :: numsOf vs := by simp [numsOf]
      rw [h1, mapFloats_cons, h2, pyBindOk, hrec, pyBindOk, h3]

lemma mapFloats_length : ∀ (vs : List JVal) (qs : List Rat),
    mapFloats vs = Except.ok qs → qs.length = vs.length := by
  intro vs
  induction vs with
  | nil =>
    intro qs h
    simp only [mapFloats] at h
    injection h with h
    simp [← h]
  | cons v vs ih =>
    intro qs h
    rw [mapFloats_cons] at h
    rcases hv : pyFloatOfVal v with e | q
    · rw [hv] at h; simp [pyBindErr] at h
    · rw [hv, pyBindOk] at h
      rcases hm : mapFloats vs with e | qs0
      · rw [hm] at h; simp [pyBindErr] at h
      · rw [hm, pyBindOk] at h
        injection h with h
        subst h
        simp [ih qs0 hm]

lemma mapFloats_error_of_bad : ∀ (vs : List JVal) (v : JVal), v ∈ vs →
    (∀ q, pyFloatOfVal v ≠ Except.ok q) → ∃ e, mapFloats vs = Except.error e := by
  intro vs
  induction vs with
  | nil => intro v hv; simp at hv
  | cons w ws ih =>
    intro v hv hbad
    rw [mapFloats_cons]
    rcases hw : pyFloatOfVal w with e | q
    · exact ⟨e, by simp [pyBindErr]⟩
    · rcases List.mem_cons.mp hv with hvw | hvm
      · subst hvw
        exact absurd hw (hbad q)
      · obtain ⟨e, he⟩ := ih v hvm hbad
        exact ⟨e, by simp [pyBindOk, he, pyBindErr]⟩

/-- Claim C6: for ratings sequences of numbers and nulls — the
aggregation contract's domain — `rating_count` is the number of non-null
entries and the saved average is the arithmetic mean of the non-null
entries, null when there are none; in particular the empty sequence gives
(null, 0) and [4, null, 2] gives (3.0, 2). -/
theorem claim6_aggregation :
    (∀ (p : PointOfInterest) (l : List JVal), p.ratings_data = JVal.arr l →
      (∀ v ∈ l, v = JVal.null ∨ ∃ q, v = JVal.num q) →
      p.rating_count = Except.ok (numsOf l).length ∧
      computeAvg p.ratings_data =
        (if numsOf l = [] then none
         else some ((numsOf l).sum / ((numsOf l).length : Rat)))) ∧
    computeAvg (JVal.arr []) = none ∧
    (mkRec (JVal.arr [])).rating_count = Except.ok 0 ∧
    computeAvg (JVal.arr [JVal.num 4, JVal.null, JVal.num 2]) = some 3 ∧
    (mkRec (JVal.arr [JVal.num 4, JVal.null, JVal.num 2])).rating_count = Except.ok 2 := by
  refine ⟨?_, rfl, rfl, by with_unfolding_all rfl, rfl⟩
  intro p l hp h
  have hm := mapFloats_nums l h
  constructor
  · rw [PointOfInterest.rating_count, hp]
    by_cases hl : l = []
    · subst hl; rfl
    · have htr : pyTruthy (JVal.arr l) = true := by simp [pyTruthy, hl]
      rw [if_pos htr]
      have hlen : ((l.filter (fun v => !v.isNull)).length) = (numsOf l).length := by
        rw [← mapFloats_length (l.filter (fun v => !v.isNull)) (numsOf l) hm]
      simp [pyIter, Except.map, hlen]
  · rw [hp]
    by_cases hl : l = []
    · subst hl
      simp [computeAvg, pyTruthy, numsOf]
    · have htr : pyTruthy (JVal.arr l) = true := by simp [pyTruthy, hl]
      rw [computeAvg, if_pos htr]
      simp only [pyIter, pyBindOk, hm]
      rcases hn : numsOf l with _ | ⟨q, qs⟩
      · simp
      · simp

/-- Witness for C6: the aggregation facts at the concrete sequence
[4, null, 2], obtained from the theorem with its hypotheses discharged. -/
theorem claim6_witness :
    (mkRec (JVal.arr [JVal.num 4, JVal.null, JVal.num 2])).rating_count =
      Except.ok (numsOf [JVal.num 4, JVal.null, JVal.num 2]).length ∧
    computeAvg (mkRec (JVal.arr [JVal.num 4, JVal.null, JVal.num 2])).ratings_data =
      (if numsOf [JVal.num 4, JVal.null, JVal.num 2] = [] then none
       else some ((numsOf [JVal.num 4, JVal.null, JVal.num 2]).sum /
         ((numsOf [JVal.num 4, JVal.null, JVal.num 2]).length : Rat))) :=
  claim6_aggregation.1 (mkRec (JVal.arr [JVal.num 4, JVal.null, JVal.num 2]))
    [JVal.num 4, JVal.null, JVal.num 2] rfl
    (by
      intro v hv
      simp only [List.mem_cons, List.mem_singleton] at hv
      rcases hv with h1 | h1 | h1 | h1 <;> first
        | (subst h1; exact Or.inl rfl)
        | (subst h1; exact Or.inr ⟨_, rfl⟩)
        | simp at h1)

/-- Claim C7 (amended): on every save, `avg_rating` is recomputed as a pure
function of the current ratings — a pre-set value is ignored — but the
saved average is null whenever the ratings list is empty, has no non-null
entries, or ANY non-null entry fails to parse as a number; it is the mean
of the parsed values only when every non-null entry parses.  (The claim's
"some parseable entry implies non-null average" fails: see the
counterexample.) -/
theorem claim7_avg_recomputed_on_save :
    (∀ (p : PointOfInterest) (s : Store) (a : Option Rat),
      ({ p with avg_rating := a }).save s = p.save s) ∧
    (∀ (p : PointOfInterest) (s : Store),
      p.save s = s ++ [{ p with avg_rating := computeAvg p.ratings_data }]) ∧
    (∀ (l : List JVal) (v : JVal), v ∈ l → v.isNull = false →
      (∀ q, pyFloatOfVal v ≠ Except.ok q) → computeAvg (JVal.arr l) = none) ∧
    (∀ l : List JVal, l.filter (fun v => !v.isNull) = [] →
      computeAvg (JVal.arr l) = none) ∧
    (∀ (l : List JVal) (qs : List Rat),
      mapFloats (l.filter (fun v => !v.isNull)) = Except.ok qs → qs ≠ [] →
      computeAvg (JVal.arr l) = some (qs.sum / (qs.length : Rat))) := by
  refine ⟨fun p s a => rfl, fun p s => rfl, ?_, ?_, ?_⟩
  · intro l v hv hnn hbad
    have hl : l ≠ [] := List.ne_nil_of_mem hv
    have htr : pyTruthy (JVal.arr l) = true := by simp [pyTruthy, hl]
    have hvf : v ∈ l.filter (fun v => !v.isNull) :=
      List.mem_filter.mpr ⟨hv, by simp [hnn]⟩
    obtain ⟨e, he⟩ := mapFloats_error_of_bad _ v hvf hbad
    rw [computeAvg, if_pos htr]
    simp [pyIter, pyBindOk, he]
  · intro l h4
    by_cases hl : l = []
    · subst hl; rfl
    · have htr : pyTruthy (JVal.arr l) = true := by simp [pyTruthy, hl]
      rw [computeAvg, if_pos htr]
      simp [pyIter, pyBindOk, h4, mapFloats]
  · intro l qs hm hq
    have hl : l ≠ [] := by
      intro h0
      subst h0
      simp only [List.filter_nil, mapFloats] at hm
      injection hm with hm
      exact hq hm.symm
    have htr : pyTruthy (JVal.arr l) = true := by simp [pyTruthy, hl]
    rw [computeAvg, if_pos htr]
    rcases hqs : qs with _ | ⟨q, qs0⟩
    · exact absurd hqs hq
    · subst hqs
      simp only [pyIter, pyBindOk, hm]

/-- Counterexample for C7 as stated: the list [4, "abc"] has a parseable
numeric entry (4), yet `save` computes a null average, because the single
try/except around the whole comprehension turns ANY unparseable entry into
`avg_rating = None`. -/
theorem claim7_counterexample :
    computeAvg (JVal.arr [JVal.num 4, JVal.str "abc"]) = none ∧
    (∃ q, pyFloatOfVal (JVal.num 4) = Except.ok q) := by
  exact ⟨by with_unfolding_all rfl, ⟨4, rfl⟩⟩

/-- Witness for C7 (amended): a pre-set average is ignored by `save`, and a
ratings list whose non-null entries all parse averages to their mean. -/
theorem claim7_witness :
    ({ mkRec (JVal.arr [JVal.num 4, JVal.null]) with avg_rating := some 99 }).save [] =
      (mkRec (JVal.arr [JVal.num 4, JVal.null])).save [] ∧
    computeAvg (JVal.arr [JVal.num 4, JVal.null]) =
      some (List.sum [(4 : Rat)] / ((List.length [(4 : Rat)] : Nat) : Rat)) :=
  ⟨claim7_avg_recomputed_on_save.1 (mkRec (JVal.arr [JVal.num 4, JVal.null])) [] (some 99),
   claim7_avg_recomputed_on_save.2.2.2.2 [JVal.num 4, JVal.null] [4] rfl (by simp)⟩

lemma get_xml_text_cons (element : XmlElem) (t : String) (rest : List String) :
    get_xml_text element (t :: rest) =
      match tagTruthyText element t with
      | some raw => some ((⟨pyTrim raw.data⟩ : String))
      | none => get_xml_text element rest := by
  rw [get_xml_text, tagTruthyText]
  rcases hf : xmlFind element t with _ | e
  · rfl
  · rcases ht : e.text with _ | txt
    · simp [ht]
    · by_cases hemp : (!txt.isEmpty) = true
      · simp [ht, hemp]
      · simp [ht, hemp]

/-- Claim C8 (amended): `get_xml_text` scans the aliases in order; an alias
yields a value exactly when its first matching child exists with truthy
(non-empty, non-None) text — aliases whose child is missing or has falsy
text are passed over in favour of LATER aliases, rather than resolving to
null — and the result is the stripped text of the first truthy alias, so
whitespace-only text yields the empty string, not null; the result is null
exactly when no alias has truthy text.  The `platitude`-absent,
`latitude`-present document resolves latitude from `latitude`. -/
theorem claim8_field_resolution :
    (∀ (element : XmlElem) (tags : List String),
      get_xml_text element tags = none ↔ ∀ t ∈ tags, tagTruthyText element t = none) ∧
    (∀ (element : XmlElem) (tags : List String) (r : String),
      get_xml_text element tags = some r ↔
        ∃ pre t post raw, tags = pre ++ t :: post ∧
          (∀ u ∈ pre, tagTruthyText element u = none) ∧
          tagTruthyText element t = some raw ∧ r = (⟨pyTrim raw.data⟩ : String)) ∧
    get_xml_text latElem ["platitude", "latitude", "poi_latitude"] = some "41.5" := by
  refine ⟨?_, ?_, rfl⟩
  · intro element tags
    induction tags with
    | nil => simp [get_xml_text]
    | cons t rest ih =>
      rw [get_xml_text_cons]
      rcases htt : tagTruthyText element t with _ | raw
      · simpa [List.forall_mem_cons, htt] using ih
      · simp [List.forall_mem_cons, htt]
  · intro element tags r
    induction tags with
    | nil =>
      constructor
      · intro h
        simp [get_xml_text] at h
      · rintro ⟨pre, t, post, raw, habs, -, -, -⟩
        exact absurd habs (by simp)
    | cons t rest ih =>
      rw [get_xml_text_cons]
      rcases htt : tagTruthyText element t with _ | raw0
      · constructor
        · intro h
          obtain ⟨pre, u, post, raw, hdec, hpre, hu, hr⟩ := ih.mp h
          refine ⟨t :: pre, u, post, raw, by rw [hdec]; rfl, ?_, hu, hr⟩
          intro x hx
          rcases List.mem_cons.mp hx with hxt | hxp
          · rw [hxt]; exact htt
          · exact hpre x hxp
        · rintro ⟨pre, u, post, raw, hdec, hpre, hu, hr⟩
          rcases pre with _ | ⟨p, ps⟩
          · simp only [List.nil_append] at hdec
            injection hdec with h1 h2
            rw [← h1] at hu
            rw [hu] at htt
            exact absurd htt (by simp)
          · rw [List.cons_append] at hdec
            injection hdec with h1 h2
            apply ih.mpr
            refine ⟨ps, u, post, raw, h2, ?_, hu, hr⟩
            intro x hx
            exact hpre x (by simp [hx])
      · constructor
        · intro h
          injection h with h
          exact ⟨[], t, rest, raw0, rfl, by simp, htt, h.symm⟩
        · rintro ⟨pre, u, post, raw, hdec, hpre, hu, hr⟩
          rcases pre with _ | ⟨p, ps⟩
          · simp only [List.nil_append] at hdec
            injection hdec with h1 h2
            rw [← h1] at hu
            rw [hu] at htt
            injection htt with htt
            rw [hr, htt]
          · rw [List.cons_append] at hdec
            injection hdec with h1 h2
            have hnone := hpre p (by simp)
            rw [← h1] at hnone
            rw [hnone] at htt
            exact absurd htt (by simp)

/-- Counterexample for C8 as stated: an element whose only latitude-alias
child has whitespace-only text.  The claim requires the resolution to be
null; the source strips the truthy text and returns the empty string
(`some ""`), not `None`. -/
theorem claim8_counterexample :
    get_xml_text wsElem ["platitude", "latitude", "poi_latitude"] = some "" := rfl

/-- Witness for C8 (amended): the alias-order decomposition at the
`platitude`-absent, `latitude`-present element, obtained by applying the
amended theorem there. -/
theorem claim8_witness :
    ∃ pre t post raw,
      (["platitude", "latitude", "poi_latitude"] : List String) = pre ++ t :: post ∧
      (∀ u ∈ pre, tagTruthyText latElem u = none) ∧
      tagTruthyText latElem t = some raw ∧ "41.5" = (⟨pyTrim raw.data⟩ : String) :=
  (claim8_field_resolution.2.1 latElem ["platitude", "latitude", "poi_latitude"] "41.5").mp rfl

lemma parse_ratings_empty : parse_ratings "" = Except.ok [] := rfl

lemma computeAvg_nil : computeAvg (JVal.arr []) = none := rfl

/-- Claim C9: the ratings field is optional for CSV and XML.  A CSV row
with the five required cells present and parseable but no `poi_ratings`
column (or an empty one) is imported, not skipped, with an empty ratings
list and a null average; likewise an XML element whose five required alias
groups resolve to truthy text but whose ratings aliases resolve to nothing
(or empty text) is imported with empty ratings and null average. -/
theorem claim9_ratings_optional :
    (∀ (row : CsvRow) (s : Store) (idv nm latS lonS cat : String) (lat lon : Rat),
      (rowFind row "poi_ratings" = none ∨ rowFind row "poi_ratings" = some (some "")) →
      rowFind row "poi_id" = some (some idv) →
      rowFind row "poi_name" = some (some nm) →
      rowFind row "poi_latitude" = some (some latS) →
      parseNumeral? latS.data = some lat →
      rowFind row "poi_longitude" = some (some lonS) →
      parseNumeral? lonS.data = some lon →
      rowFind row "poi_category" = some (some cat) →
      import_csv [row] s = (Except.ok 1,
        s ++ [{ external_id := JVal.str idv, name := JVal.str nm, latitude := lat,
                longitude := lon, category := JVal.str cat, ratings_data := JVal.arr [],
                description := JVal.null, avg_rating := none }])) ∧
    (∀ (element : XmlElem) (s : Store) (idv nm latS lonS cat : String) (lat lon : Rat),
      (get_xml_text element ["pratings", "ratings", "poi_ratings"] = none ∨
       get_xml_text element ["pratings", "ratings", "poi_ratings"] = some "") →
      get_xml_text element ["pid", "id", "poi_id"] = some idv → idv.isEmpty = false →
      get_xml_text element ["pname", "name", "poi_name"] = some nm → nm.isEmpty = false →
      get_xml_text element ["platitude", "latitude", "poi_latitude"] = some latS →
      latS.isEmpty = false → parseNumeral? latS.data = some lat →
      get_xml_text element ["plongitude", "longitude", "poi_longitude"] = some lonS →
      lonS.isEmpty = false → parseNumeral? lonS.data = some lon →
      get_xml_text element ["pcategory", "category", "poi_category"] = some cat →
      cat.isEmpty = false →
      runRows XmlElem xmlRecord xmlCaught [element] s 0 = (Except.ok 1,
        s ++ [{ external_id := JVal.str idv, name := JVal.str nm, latitude := lat,
                longitude := lon, category := JVal.str cat, ratings_data := JVal.arr [],
                description := JVal.null, avg_rating := none }])) := by
  constructor
  · intro row s idv nm latS lonS cat lat lon hrat hid hnm hlatc hlat hlonc hlon hcat
    have hps : parse_ratings ((⟨pyTrim ("" : String).data⟩ : String)) = Except.ok [] := by
      with_unfolding_all rfl
    have hrec : csvRecord row = Except.ok (some
        { external_id := JVal.str idv, name := JVal.str nm, latitude := lat,
          longitude := lon, category := JVal.str cat, ratings_data := JVal.arr [],
          description := JVal.null, avg_rating := none }) := by
      rcases hrat with h | h <;>
        simp only [csvRecord, h, pyBindOk, parse_ratings_empty, hps, rowIndex, hid, hnm,
          hlatc, hlonc, hcat, pyDecimalOfCell, decimalOfStr, hlat, hlon, cellVal] <;>
        try rfl
    simp only [import_csv, atomically, runRows, hrec]
    simp [PointOfInterest.save, computeAvg_nil]
  · intro element s idv nm latS lonS cat lat lon hrat hid hidne hnm hnmne hlatg hlatne
      hlat hlong hlonne hlon hcat hcatne
    have hro : pyOrEmpty (get_xml_text element ["pratings", "ratings", "poi_ratings"]) = "" := by
      rcases hrat with h | h <;> rw [h] <;> rfl
    have hrec : xmlRecord element = Except.ok (some
        { external_id := JVal.str idv, name := JVal.str nm, latitude := lat,
          longitude := lon, category := JVal.str cat, ratings_data := JVal.arr [],
          description := JVal.null, avg_rating := none }) := by
      simp only [xmlRecord, hid, hnm, hlatg, hlong, hcat, hro, truthyOpt,
        hidne, hnmne, hlatne, hlonne, hcatne, Bool.not_false, Bool.and_true,
        Bool.and_self, Bool.not_true, parse_ratings_empty, pyBindOk,
        decimalOfStr, Option.getD, hlat, hlon, cellVal]
      simp only [Bool.false_eq_true, if_false, reduceIte]
      rfl
    simp only [runRows, hrec]
    simp [PointOfInterest.save, computeAvg_nil]

/-- Witness for C9: the concrete ratings-free CSV row and XML element are
both imported with empty ratings and null average. -/
theorem claim9_witness :
    import_csv [row9] [] = (Except.ok 1, [rec9]) ∧
    runRows XmlElem xmlRecord xmlCaught [elem9] [] 0 = (Except.ok 1, [rec9]) := by
  constructor
  · have h := claim9_ratings_optional.1 row9 [] "9" "Pier" "1" "2" "fun" 1 2
      (Or.inl rfl) rfl rfl rfl (by with_unfolding_all rfl) rfl
      (by with_unfolding_all rfl) rfl
    simpa [rec9, row9] using h
  · have h := claim9_ratings_optional.2 elem9 [] "9" "Pier" "1" "2" "fun" 1 2
      (Or.inl rfl) rfl rfl rfl rfl rfl rfl (by with_unfolding_all rfl)
      rfl rfl (by with_unfolding_all rfl) rfl rfl
    simpa [rec9, elem9] using h

/-- Claim C10: adapter dispatch is case-insensitive because `import_file`
lowercases the whole path before extracting the extension: any two paths
equal up to letter case are dispatched identically, and paths ending in
`.CSV`, `.Json`, `.XML` go to the CSV, JSON and XML importers respectively
rather than failing as unsupported. -/
theorem claim10_extension_case_insensitive :
    (∀ u v : String, u.data.map Char.toLower = v.data.map Char.toLower →
      ∀ (fd : FileData) (s : Store), import_file u fd s = import_file v fd s) ∧
    (∀ (fd : FileData) (s : Store), import_file "poi.CSV" fd s = import_csv fd.asCsv s) ∧
    (∀ (fd : FileData) (s : Store), import_file "poi.Json" fd s = import_json fd.asJson s) ∧
    (∀ (fd : FileData) (s : Store), import_file "poi.XML" fd s = import_xml fd.asXml s) := by
  refine ⟨?_, ?_, ?_, ?_⟩
  · intro u v h fd s
    have hfe : fileExt u = fileExt v := by
      simp only [fileExt, h]
    simp only [import_file, hfe]
  · intro fd s
    with_unfolding_all rfl
  · intro fd s
    with_unfolding_all rfl
  · intro fd s
    with_unfolding_all rfl

/-- Witness for C10: the upper-case and lower-case spellings of the same
path dispatch identically, by the theorem applied at those paths. -/
theorem claim10_witness :
    import_file "poi.CSV" fdEmpty [] = import_file "poi.csv" fdEmpty [] :=
  claim10_extension_case_insensitive.1 "poi.CSV" "poi.csv" (by with_unfolding_all rfl)
    fdEmpty []
